import Mathlib

/-!
Verification of the douglasmakey/tracking service (v2 asynchronous matching).

The development shallowly embeds the Go source:
  storages/redis.go   - the redis client helpers (geo set "drivers", string keys)
  tasks  (request.go) - RequestDriverTask with Run / validateRequest / doSearch
  handler/v2          - SearchV2 and CancelRequest

Numbers are embedded as Nat / Int / Rat; redis calls become operations on an
explicit state; the fire-and-forget goroutines of Run become an interleaving
small-step relation (Step / Steps below). Definitions come first, theorems follow.
-/

namespace Tracking

/-- Encoding go-redis applies to a Go bool argument of SET: "1" for true, "0" for false. -/
def encodeBool (b : Bool) : String := if b then "1" else "0"

/-- Errors a redis GET can signal: redis.Nil (key absent) or a transport failure. -/
inductive RedisErr
  | nil
  | transport
  deriving DecidableEq

/-- Reasons a request is invalid: ErrExpired and ErrCanceled of the tasks package. -/
inductive RunErr
  | expired
  | canceled
  deriving DecidableEq

/-- Literals accepted as true by Go strconv.ParseBool. -/
def trueStrings : List String := ["1", "t", "T", "TRUE", "true", "True"]

/-- Literals accepted as false by Go strconv.ParseBool. -/
def falseStrings : List String := ["0", "f", "F", "FALSE", "false", "False"]

/-- Embedding of Go strconv.ParseBool: some b on an accepted literal, none on a parse error
(in Go the error case returns the zero value false together with the error). -/
def parseBool (s : String) : Option Bool :=
  if s ∈ trueStrings then some true
  else if s ∈ falseStrings then some false
  else none

/-- Embedding of RequestDriverTask.validateRequest, as a function of the outcome of
rClient.Get(r.ID).Result(). The source returns ErrExpired on any error (the error value is
discarded), and otherwise runs strconv.ParseBool discarding the parse error, so a
non-boolean value yields isActive = false and hence ErrCanceled. -/
def validateRequest (res : Except RedisErr String) : Option RunErr :=
  match res with
  | .error _ => some .expired
  | .ok v => if (parseBool v).getD false then none else some .canceled

/-- Lookup of a key in the key/value part of the redis state (value component). -/
def lookupKV (kv : List (String × String × ℕ)) (k : String) : Option String :=
  match kv with
  | [] => none
  | e :: rest => if e.1 = k then some e.2.1 else lookupKV rest k

/-- Lookup of a key in the key/value part of the redis state (remaining TTL in seconds). -/
def ttlKV (kv : List (String × String × ℕ)) (k : String) : Option ℕ :=
  match kv with
  | [] => none
  | e :: rest => if e.1 = k then some e.2.2 else ttlKV rest k

/-- Embedding of rClient.Get(k).Result(): ok with the stored value, or the redis.Nil
error when the key is absent. -/
def ledgerGet (kv : List (String × String × ℕ)) (k : String) : Except RedisErr String :=
  match lookupKV kv k with
  | some v => .ok v
  | none => .error .nil

/-- Entry of the geo sorted set "drivers": member name with its reported position
(AddDriverLocation stores longitude and latitude under the driver id). -/
structure Member where
  name : String
  lng : ℚ
  lat : ℚ
  deriving DecidableEq

/-- Result row of GEORADIUS with WITHCOORD, WITHDIST and WITHHASH, as in
redis.GeoLocation: name, coordinates, distance from the query center, geohash score. -/
structure GeoLoc where
  name : String
  longitude : ℚ
  latitude : ℚ
  dist : ℚ
  geoHash : ℤ
  deriving DecidableEq

/-- Distance oracle of the external geo index: arguments are query latitude, query
longitude, member latitude, member longitude (the source lets redis compute kilometer
distances; the embedding is parametric in the metric). -/
abbrev Dist := ℚ → ℚ → ℚ → ℚ → ℚ

/-- Geohash score oracle of the external geo index (returned, never inspected). -/
abbrev Hash := ℚ → ℚ → ℤ

/-- Insertion into a list sorted by ascending distance. -/
def insertByDist (x : GeoLoc) : List GeoLoc → List GeoLoc
  | [] => [x]
  | y :: ys => if x.dist ≤ y.dist then x :: y :: ys else y :: insertByDist x ys

/-- Sorting by ascending distance (GEORADIUS Sort "ASC"). -/
def sortByDist : List GeoLoc → List GeoLoc
  | [] => []
  | x :: xs => insertByDist x (sortByDist xs)

/-- Embedding of RedisClient.SearchDrivers: GEORADIUS on the "drivers" set centered at
the given point, members within radius r, ascending by distance, at most limit rows. -/
def searchDrivers (d : Dist) (g : Hash) (limit : ℕ) (lat lng r : ℚ)
    (idx : List Member) : List GeoLoc :=
  (sortByDist (idx.filterMap fun m =>
    if d lat lng m.lat m.lng ≤ r then
      some ⟨m.name, m.lng, m.lat, d lat lng m.lat m.lng, g m.lat m.lng⟩
    else none)).take limit

/-- Embedding of RedisClient.RemoveDriverLocation: ZREM of the member by name. -/
def removeMember (idx : List Member) (n : String) : List Member :=
  idx.filter fun m => !decide (m.name = n)

/-- Actions doSearch performs, in order: the index query, the removal of the found
driver, the write to r.DriverID, the send on the done channel. -/
inductive DAct
  | query (res : List GeoLoc)
  | removeLoc (name : String)
  | assign (name : String)
  | send
  deriving DecidableEq

/-- Result of one doSearch execution: index afterwards, task DriverID afterwards,
whether the done signal was sent, and the ordered action trace. -/
structure DoSearchRes where
  idx : List Member
  driverID : String
  doneSent : Bool
  acts : List DAct
  deriving DecidableEq

/-- Embedding of RequestDriverTask.doSearch: SearchDrivers(1, r.Lat, r.Lng, 5); if
exactly one driver is returned it is removed from the index, recorded in r.DriverID and
the done signal is sent, in that order; otherwise nothing happens. -/
def doSearch (d : Dist) (g : Hash) (lat lng : ℚ) (did0 : String)
    (idx0 : List Member) : DoSearchRes :=
  let drivers := searchDrivers d g 1 lat lng 5 idx0
  match drivers with
  | [dr] => ⟨removeMember idx0 dr.name, dr.name, true,
      [.query drivers, .removeLoc dr.name, .assign dr.name, .send]⟩
  | _ => ⟨idx0, did0, false, [.query drivers]⟩

/-- Phase of one matching task: Run is in its loop, or has returned through the driver
found branch, the expired branch, or the canceled branch. -/
inductive Phase
  | looping
  | matched
  | expiredDone
  | canceledDone
  deriving DecidableEq

/-- Program counter of one in-flight doSearch goroutine: spawned but the index query not
yet executed, or the query executed with the found driver name (none when no driver). -/
inductive GoSt
  | started
  | queried (found : Option String)
  deriving DecidableEq

/-- Observable actions of a task execution: ledger reads, log lines, the sendInfo
notification to the requester, and location index accesses. -/
inductive Act
  | ledgerGet
  | logSearch
  | notify (user msg : String)
  | logCancel
  | indexQuery
  | indexRemove (name : String)
  deriving DecidableEq

/-- State of one RequestDriverTask together with the shared redis state it touches:
loop phase, request id/user/target, current r.DriverID, the in-flight doSearch
goroutines, occupancy of the buffered done channel (capacity 1), the ledger keys and
the drivers geo set. -/
structure Config where
  phase : Phase
  reqID : String
  userID : String
  lat : ℚ
  lng : ℚ
  driverID : String
  gos : List GoSt
  doneBuf : Bool
  ledger : List (String × String × ℕ)
  index : List Member
  deriving DecidableEq

/-- Outcomes a Get call may deliver for key k against ledger led: the stored answer, or
a transport failure, which can strike at any moment. -/
def readOk (res : Except RedisErr String) (led : List (String × String × ℕ))
    (k : String) : Prop :=
  res = ledgerGet led k ∨ res = Except.error RedisErr.transport

/-- Driver found by one doSearch query: the name when SearchDrivers with limit 1 and
radius 5 returns exactly one row, none otherwise. -/
def searchFound (d : Dist) (g : Hash) (lat lng : ℚ) (idx : List Member) : Option String :=
  match searchDrivers d g 1 lat lng 5 idx with
  | [dr] => some dr.name
  | _ => none

/-- Message sendInfo delivers when the request expires. -/
def expiredMsg : String := "Sorry, we did not find any driver."

/-- Message sendInfo delivers when a driver is found. -/
def foundMsg (n : String) : String := "Driver " ++ n ++ " found"

/-- Interleaving small-step semantics of Run and its doSearch goroutines. A ticker tick
runs validateRequest and either spawns a doSearch goroutine (valid), notifies and
returns (expired), or logs and returns (canceled); a buffered done signal is received
only while the loop runs; a spawned goroutine executes its index query and, when a
driver was found and the done buffer is free, removes the driver, writes r.DriverID and
sends done - in any phase, because Run never waits for it; the environment may rewrite
the shared ledger (TTL expiry, cancel calls) and the shared index (other tasks and
drivers). -/
inductive Step (d : Dist) (g : Hash) : Config → List Act → Config → Prop
  | tickOk (res : Except RedisErr String) (rid uid : String) (lat lng : ℚ) (did : String)
      (gos : List GoSt) (db : Bool) (led : List (String × String × ℕ)) (idx : List Member) :
      readOk res led rid → validateRequest res = none →
      Step d g ⟨.looping, rid, uid, lat, lng, did, gos, db, led, idx⟩
        [.ledgerGet, .logSearch]
        ⟨.looping, rid, uid, lat, lng, did, gos ++ [.started], db, led, idx⟩
  | tickExpired (res : Except RedisErr String) (rid uid : String) (lat lng : ℚ)
      (did : String) (gos : List GoSt) (db : Bool) (led : List (String × String × ℕ))
      (idx : List Member) :
      readOk res led rid → validateRequest res = some .expired →
      Step d g ⟨.looping, rid, uid, lat, lng, did, gos, db, led, idx⟩
        [.ledgerGet, .notify uid expiredMsg]
        ⟨.expiredDone, rid, uid, lat, lng, did, gos, db, led, idx⟩
  | tickCanceled (res : Except RedisErr String) (rid uid : String) (lat lng : ℚ)
      (did : String) (gos : List GoSt) (db : Bool) (led : List (String × String × ℕ))
      (idx : List Member) :
      readOk res led rid → validateRequest res = some .canceled →
      Step d g ⟨.looping, rid, uid, lat, lng, did, gos, db, led, idx⟩
        [.ledgerGet, .logCancel]
        ⟨.canceledDone, rid, uid, lat, lng, did, gos, db, led, idx⟩
  | recvDone (rid uid : String) (lat lng : ℚ) (did : String) (gos : List GoSt)
      (led : List (String × String × ℕ)) (idx : List Member) :
      Step d g ⟨.looping, rid, uid, lat, lng, did, gos, true, led, idx⟩
        [.notify uid (foundMsg did)]
        ⟨.matched, rid, uid, lat, lng, did, gos, false, led, idx⟩
  | goQuery (ph : Phase) (rid uid : String) (lat lng : ℚ) (did : String)
      (l1 l2 : List GoSt) (db : Bool) (led : List (String × String × ℕ))
      (idx : List Member) :
      Step d g ⟨ph, rid, uid, lat, lng, did, l1 ++ .started :: l2, db, led, idx⟩
        [.indexQuery]
        ⟨ph, rid, uid, lat, lng, did, l1 ++ .queried (searchFound d g lat lng idx) :: l2,
          db, led, idx⟩
  | goFound (ph : Phase) (rid uid : String) (lat lng : ℚ) (did : String)
      (l1 l2 : List GoSt) (n : String) (led : List (String × String × ℕ))
      (idx : List Member) :
      Step d g ⟨ph, rid, uid, lat, lng, did, l1 ++ .queried (some n) :: l2, false, led, idx⟩
        [.indexRemove n]
        ⟨ph, rid, uid, lat, lng, n, l1 ++ l2, true, led, removeMember idx n⟩
  | goNone (ph : Phase) (rid uid : String) (lat lng : ℚ) (did : String)
      (l1 l2 : List GoSt) (db : Bool) (led : List (String × String × ℕ))
      (idx : List Member) :
      Step d g ⟨ph, rid, uid, lat, lng, did, l1 ++ .queried none :: l2, db, led, idx⟩
        [] ⟨ph, rid, uid, lat, lng, did, l1 ++ l2, db, led, idx⟩
  | envLedger (ph : Phase) (rid uid : String) (lat lng : ℚ) (did : String)
      (gos : List GoSt) (db : Bool) (led led' : List (String × String × ℕ))
      (idx : List Member) :
      Step d g ⟨ph, rid, uid, lat, lng, did, gos, db, led, idx⟩
        [] ⟨ph, rid, uid, lat, lng, did, gos, db, led', idx⟩
  | envIndex (ph : Phase) (rid uid : String) (lat lng : ℚ) (did : String)
      (gos : List GoSt) (db : Bool) (led : List (String × String × ℕ))
      (idx idx' : List Member) :
      Step d g ⟨ph, rid, uid, lat, lng, did, gos, db, led, idx⟩
        [] ⟨ph, rid, uid, lat, lng, did, gos, db, led, idx'⟩

/-- Reflexive-transitive closure of Step, concatenating the action traces. -/
inductive Steps (d : Dist) (g : Hash) : Config → List Act → Config → Prop
  | refl (c : Config) : Steps d g c [] c
  | cons {c : Config} {as : List Act} {c' : Config} {bs : List Act} {c'' : Config} :
      Step d g c as c' → Steps d g c' bs c'' → Steps d g c (as ++ bs) c''

/-- Notifications contained in an action trace, as (user, message) pairs. -/
def notifs (as : List Act) : List (String × String) :=
  as.filterMap fun a => match a with | .notify u m => some (u, m) | _ => none

/-- Whether a phase is terminal (Run has returned). -/
def isTerminal : Phase → Bool
  | .looping => false
  | _ => true

/-- Decimal digit character: '0' + d. -/
def digitChar (d : ℕ) : Char := Char.ofNat (48 + d)

/-- Numeric value of a decimal digit character. -/
def digitVal (c : Char) : ℕ := c.toNat - 48

/-- Least-significant-first decimal digits of n, with explicit fuel (fuel ≥ n suffices). -/
def digitsRevAux : ℕ → ℕ → List ℕ
  | _, 0 => []
  | 0, _ + 1 => []
  | fuel + 1, n + 1 => (n + 1) % 10 :: digitsRevAux fuel ((n + 1) / 10)

/-- Least-significant-first decimal digits of n. -/
def digitsRev (n : ℕ) : List ℕ := digitsRevAux n n

/-- Value of a least-significant-first digit list. -/
def fromDigitsRev : List ℕ → ℕ
  | [] => 0
  | d :: ds => d + 10 * fromDigitsRev ds

/-- Embedding of Go strconv.Itoa on the non-negative ids this program produces:
the usual decimal rendering. -/
def itoa (n : ℕ) : String :=
  if n = 0 then "0" else String.mk ((digitsRev n).reverse.map digitChar)

/-- Decimal value of a rendered string, inverse to itoa. -/
def decodeDigits (s : String) : ℕ := fromDigitsRev (s.data.reverse.map digitVal)

/-- State of the single redis instance the service talks to: the "request_id" counter,
the string keys (request liveness flags with their TTL in seconds) and the geo set. -/
structure RedisState where
  counter : ℕ
  kv : List (String × String × ℕ)
  drivers : List Member
  deriving DecidableEq

/-- Embedding of rClient.Set(k, v, ttl): create-or-overwrite the key with an attached TTL. -/
def redisSet (st : RedisState) (k v : String) (ttl : ℕ) : RedisState :=
  { st with kv := (k, v, ttl) :: st.kv.filter fun e => !decide (e.1 = k) }

/-- Response the handler writes: status code and body. -/
structure HttpResp where
  status : ℕ
  body : String
  deriving DecidableEq

/-- Task handed to `go rTask.Run()` by SearchV2: the ledger key, the requester reference
and the immutable target point. The spawn is fire-and-forget, so the handler only
produces the task value; it never runs it. -/
structure SpawnedTask where
  id : String
  userID : String
  lat : ℚ
  lng : ℚ
  deriving DecidableEq

/-- Embedding of handler/v2 SearchV2. incrErr models a failing INCR (early return with an
empty 200); body is the decoded request body, none when json decoding fails. The INCR and
the SET with the 4-minute TTL happen before the body is decoded, exactly as in the source. -/
def searchV2 (st : RedisState) (incrErr : Bool) (body : Option (ℚ × ℚ)) :
    RedisState × List SpawnedTask × HttpResp :=
  if incrErr then (st, [], ⟨200, ""⟩)
  else
    let n := st.counter + 1
    let key := itoa n
    let st1 := redisSet { st with counter := n } key (encodeBool true) 240
    match body with
    | none => (st1, [], ⟨500, "could not decode request\n"⟩)
    | some (lat, lng) =>
      (st1, [⟨key, "requestor_" ++ key, lat, lng⟩],
        ⟨200, "\x7b\"request_id\": " ++ key ++ "\x7d"⟩)

/-- Embedding of handler/v2 CancelRequest: on a decoded request_id it overwrites the key
with false and a 1-minute TTL and answers 200 with an empty body; the SET outcome is
discarded. A decode failure answers 500. -/
def cancelRequest (st : RedisState) (body : Option String) : RedisState × HttpResp :=
  match body with
  | none => (st, ⟨500, "could not decode request\n"⟩)
  | some rid => (redisSet st rid (encodeBool false) 60, ⟨200, ""⟩)

/-- Constant unit distance oracle used for concrete executions. -/
def dOne : Dist := fun _ _ _ _ => 1

/-- Constant zero geohash oracle used for concrete executions. -/
def gZero : Hash := fun _ _ => 0

/-- Freshly spawned task 9 with an active ledger entry and driver d1 in the index. -/
def c3a : Config :=
  ⟨.looping, "9", "requestor_9", 0, 0, "", [], false, [("9", "1", 240)], [⟨"d1", 0, 0⟩]⟩

/-- Task 9 after its ledger entry lapsed and the expired branch notified, with one
doSearch goroutine still in flight. -/
def c3mid : Config :=
  ⟨.expiredDone, "9", "requestor_9", 0, 0, "", [.started], false, [], [⟨"d1", 0, 0⟩]⟩

/-- c3mid after the leftover goroutine ran its index query and found d1. -/
def c3mid2 : Config :=
  ⟨.expiredDone, "9", "requestor_9", 0, 0, "", [.queried (some "d1")], false, [],
    [⟨"d1", 0, 0⟩]⟩

/-- c3mid2 after the leftover goroutine removed d1 and sent done into the void. -/
def c3end : Config :=
  ⟨.expiredDone, "9", "requestor_9", 0, 0, "d1", [], true, [], []⟩

/-- Start state for the overlapping-search scenario: active entry, driver d1 present. -/
def c7c0 : Config :=
  ⟨.looping, "9", "requestor_9", 0, 0, "", [], false, [("9", "1", 240)], [⟨"d1", 0, 0⟩]⟩

/-- Two doSearch goroutines of the same task both mid-flight, both having selected d1. -/
def c7c4 : Config :=
  ⟨.looping, "9", "requestor_9", 0, 0, "", [.queried (some "d1"), .queried (some "d1")],
    false, [("9", "1", 240)], [⟨"d1", 0, 0⟩]⟩

/-- Start state for the spawn witness. -/
def c7w0 : Config :=
  ⟨.looping, "9", "requestor_9", 0, 0, "", [], false, [("9", "1", 240)], []⟩

/-- c7w0 after one valid tick spawned a search goroutine. -/
def c7w1 : Config :=
  ⟨.looping, "9", "requestor_9", 0, 0, "", [.started], false, [("9", "1", 240)], []⟩

/-- Task 9 with an active ledger entry, read through a transport error. -/
def c4a : Config :=
  ⟨.looping, "9", "requestor_9", 0, 0, "", [], false, [("9", "1", 240)], []⟩

/-- c4a after the tick that hit the transport error. -/
def c4a' : Config :=
  ⟨.expiredDone, "9", "requestor_9", 0, 0, "", [], false, [("9", "1", 240)], []⟩

/-- Task 9 whose ledger entry genuinely lapsed. -/
def c4b : Config :=
  ⟨.looping, "9", "requestor_9", 0, 0, "", [], false, [], []⟩

/-- c4b after the tick that observed the absent key. -/
def c4b' : Config :=
  ⟨.expiredDone, "9", "requestor_9", 0, 0, "", [], false, [], []⟩

/-- A task that already returned through the canceled branch. -/
def c5term : Config :=
  ⟨.canceledDone, "5", "requestor_5", 0, 0, "", [], false, [("5", "0", 60)], []⟩

/-- c5term after the environment rewrote the ledger (for instance a cancel call). -/
def c5term' : Config :=
  ⟨.canceledDone, "5", "requestor_5", 0, 0, "", [], false, [("5", "0", 60), ("7", "0", 60)], []⟩

/-- Empty redis state used for concrete handler calls. -/
def st0 : RedisState := ⟨0, [], []⟩

/-- C1: for every request id, validateRequest returns ErrExpired when the ledger entry is
absent, ErrCanceled when it is present with the canceled flag (false, stored as "0"),
and no error when it is present with the active flag (true, stored as "1"). -/
theorem validateRequest_ledger_cases (kv : List (String × String × ℕ)) (id : String) :
    (lookupKV kv id = none → validateRequest (ledgerGet kv id) = some RunErr.expired)
  ∧ (lookupKV kv id = some (encodeBool false) →
      validateRequest (ledgerGet kv id) = some RunErr.canceled)
  ∧ (lookupKV kv id = some (encodeBool true) → validateRequest (ledgerGet kv id) = none) := by
  refine ⟨fun h => ?_, fun h => ?_, fun h => ?_⟩ <;>
    simp only [ledgerGet, h, encodeBool] <;> decide

/-- Witness for C1 at concrete ledgers: id "7" absent, canceled, and active. -/
theorem validateRequest_ledger_cases_witness :
    validateRequest (ledgerGet [] "7") = some RunErr.expired
  ∧ validateRequest (ledgerGet [("7", "0", 60)] "7") = some RunErr.canceled
  ∧ validateRequest (ledgerGet [("7", "1", 240)] "7") = none :=
  ⟨(validateRequest_ledger_cases [] "7").1 (by decide),
   (validateRequest_ledger_cases [("7", "0", 60)] "7").2.1 (by decide),
   (validateRequest_ledger_cases [("7", "1", 240)] "7").2.2 (by decide)⟩

/-- C9: a present ledger value that strconv.ParseBool rejects is treated as a canceled
request: the parse error is discarded, isActive defaults to false, ErrCanceled results. -/
theorem validateRequest_unparseable_canceled (v : String) (h : parseBool v = none) :
    validateRequest (Except.ok v) = some RunErr.canceled := by
  simp [validateRequest, h]

/-- Witness for C9 at the concrete unparseable value "yes". -/
theorem validateRequest_unparseable_canceled_witness :
    parseBool "yes" = none ∧ validateRequest (Except.ok "yes") = some RunErr.canceled :=
  ⟨by decide, validateRequest_unparseable_canceled "yes" (by decide)⟩

/-- C4 (amended): any read error from the ledger, transport failures included, is mapped
to ErrExpired; the error value is discarded, so a transport error yields exactly the
value an absent key yields and nothing distinguishes the two. -/
theorem validateRequest_error_expired (e : RedisErr) :
    validateRequest (Except.error e) = some RunErr.expired
  ∧ validateRequest (Except.error e) = validateRequest (Except.error RedisErr.nil) :=
  ⟨rfl, rfl⟩

theorem fromDigitsRev_digitsRevAux :
    ∀ fuel n : ℕ, n ≤ fuel → fromDigitsRev (digitsRevAux fuel n) = n := by
  intro fuel
  induction fuel with
  | zero =>
    intro n hn
    interval_cases n
    rfl
  | succ f ih =>
    intro n hn
    match n with
    | 0 => rfl
    | m + 1 =>
      have hlt : (m + 1) / 10 < m + 1 := Nat.div_lt_self (Nat.succ_pos m) (by norm_num)
      have hdiv : (m + 1) / 10 ≤ f := by omega
      simp only [digitsRevAux, fromDigitsRev, ih _ hdiv]
      omega

theorem digitsRevAux_lt : ∀ fuel n : ℕ, ∀ x ∈ digitsRevAux fuel n, x < 10 := by
  intro fuel
  induction fuel with
  | zero =>
    intro n x hx
    match n with
    | 0 => simp [digitsRevAux] at hx
    | m + 1 => simp [digitsRevAux] at hx
  | succ f ih =>
    intro n x hx
    match n with
    | 0 => simp [digitsRevAux] at hx
    | m + 1 =>
      simp only [digitsRevAux, List.mem_cons] at hx
      rcases hx with h | h
      · omega
      · exact ih _ x h

theorem digitVal_digitChar (d : ℕ) (h : d < 10) : digitVal (digitChar d) = d := by
  interval_cases d <;> rfl

theorem map_digitVal_digitChar (l : List ℕ) (h : ∀ x ∈ l, x < 10) :
    (l.map digitChar).map digitVal = l := by
  induction l with
  | nil => rfl
  | cons a t ih =>
    simp only [List.map_cons]
    rw [digitVal_digitChar a (h a (List.mem_cons_self a t)),
      ih fun x hx => h x (List.mem_cons_of_mem a hx)]

theorem decode_itoa (n : ℕ) : decodeDigits (itoa n) = n := by
  by_cases h : n = 0
  · subst h; rfl
  · simp only [itoa, h, if_false, decodeDigits]
    show fromDigitsRev ((((digitsRev n).reverse.map digitChar).reverse).map digitVal) = n
    rw [← List.map_reverse, List.reverse_reverse,
      map_digitVal_digitChar (digitsRev n) (digitsRevAux_lt n n)]
    exact fromDigitsRev_digitsRevAux n n le_rfl

theorem itoa_injective : Function.Injective itoa := by
  intro a b h
  have h2 := congrArg decodeDigits h
  rwa [decode_itoa, decode_itoa] at h2

theorem lookupKV_filter_ne (kv : List (String × String × ℕ)) (rid k : String) (h : k ≠ rid) :
    lookupKV (kv.filter fun e => !decide (e.1 = rid)) k = lookupKV kv k := by
  induction kv with
  | nil => rfl
  | cons e rest ih =>
    by_cases he : e.1 = rid
    · rw [List.filter_cons_of_neg (by simp [he])]
      rw [ih]
      have hek : ¬ e.1 = k := by rw [he]; exact fun hk => h hk.symm
      simp [lookupKV, hek]
    · rw [List.filter_cons_of_pos (by simp [he])]
      by_cases hek : e.1 = k
      · simp [lookupKV, hek]
      · simp [lookupKV, hek, ih]

theorem step_userID_eq {d : Dist} {g : Hash} {c : Config} {as : List Act} {c' : Config}
    (h : Step d g c as c') : c'.userID = c.userID := by
  cases h <;> rfl

theorem step_phase_terminal {d : Dist} {g : Hash} {c : Config} {as : List Act}
    {c' : Config} (h : Step d g c as c') (ht : isTerminal c.phase = true) :
    c'.phase = c.phase ∧ notifs as = [] ∧ Act.ledgerGet ∉ as := by
  cases h with
  | tickOk res rid uid lat lng did gos db led idx h1 h2 => simp [isTerminal] at ht
  | tickExpired res rid uid lat lng did gos db led idx h1 h2 => simp [isTerminal] at ht
  | tickCanceled res rid uid lat lng did gos db led idx h1 h2 => simp [isTerminal] at ht
  | recvDone rid uid lat lng did gos led idx => simp [isTerminal] at ht
  | goQuery ph rid uid lat lng did l1 l2 db led idx => exact ⟨rfl, rfl, by simp⟩
  | goFound ph rid uid lat lng did l1 l2 n led idx => exact ⟨rfl, rfl, by simp⟩
  | goNone ph rid uid lat lng did l1 l2 db led idx => exact ⟨rfl, rfl, by simp⟩
  | envLedger ph rid uid lat lng did gos db led led' idx => exact ⟨rfl, rfl, by simp⟩
  | envIndex ph rid uid lat lng did gos db led idx idx' => exact ⟨rfl, rfl, by simp⟩

theorem step_notifs {d : Dist} {g : Hash} {c : Config} {as : List Act} {c' : Config}
    (h : Step d g c as c') :
    (c'.phase = c.phase ∧ notifs as = [])
  ∨ (c.phase = Phase.looping ∧
      ((c'.phase = Phase.matched ∧ notifs as = [(c.userID, foundMsg c.driverID)])
     ∨ (c'.phase = Phase.expiredDone ∧ notifs as = [(c.userID, expiredMsg)])
     ∨ (c'.phase = Phase.canceledDone ∧ notifs as = []))) := by
  cases h <;>
    first
      | exact Or.inl ⟨rfl, rfl⟩
      | exact Or.inr ⟨rfl, Or.inl ⟨rfl, rfl⟩⟩
      | exact Or.inr ⟨rfl, Or.inr (Or.inl ⟨rfl, rfl⟩)⟩
      | exact Or.inr ⟨rfl, Or.inr (Or.inr ⟨rfl, rfl⟩)⟩

theorem notifs_append (as bs : List Act) : notifs (as ++ bs) = notifs as ++ notifs bs := by
  simp [notifs, List.filterMap_append]

theorem steps_terminal {d : Dist} {g : Hash} :
    ∀ {c : Config} {as : List Act} {cf : Config}, Steps d g c as cf →
      isTerminal c.phase = true → cf.phase = c.phase ∧ notifs as = [] := by
  intro c as cf h
  induction h with
  | refl c0 => exact fun _ => ⟨rfl, rfl⟩
  | @cons c1 as1 c2 bs c3 hstep htail ih =>
    intro ht
    obtain ⟨h1, h2, _⟩ := step_phase_terminal hstep ht
    obtain ⟨h3, h4⟩ := ih (by rw [h1]; exact ht)
    refine ⟨h3.trans h1, ?_⟩
    rw [notifs_append, h2, h4]
    rfl

theorem steps_notifs {d : Dist} {g : Hash} :
    ∀ {c : Config} {as : List Act} {cf : Config}, Steps d g c as cf →
      c.phase = Phase.looping →
    ((cf.phase = Phase.looping ∧ notifs as = [])
   ∨ (cf.phase = Phase.matched ∧ ∃ n, notifs as = [(c.userID, foundMsg n)])
   ∨ (cf.phase = Phase.expiredDone ∧ notifs as = [(c.userID, expiredMsg)])
   ∨ (cf.phase = Phase.canceledDone ∧ notifs as = [])) := by
  intro c as cf h
  induction h with
  | refl c0 => exact fun h0 => Or.inl ⟨h0, rfl⟩
  | @cons c1 as1 c2 bs c3 hstep htail ih =>
    intro h0
    have huid : c2.userID = c1.userID := step_userID_eq hstep
    rcases step_notifs hstep with ⟨hp, hn⟩ | ⟨_, hcase⟩
    · have h2 : c2.phase = Phase.looping := hp.trans h0
      rcases ih h2 with ⟨ha, hb⟩ | ⟨ha, n, hb⟩ | ⟨ha, hb⟩ | ⟨ha, hb⟩
      · exact Or.inl ⟨ha, by rw [notifs_append, hn, hb]; rfl⟩
      · exact Or.inr (Or.inl ⟨ha, n, by rw [notifs_append, hn, hb, huid]; rfl⟩)
      · exact Or.inr (Or.inr (Or.inl ⟨ha, by rw [notifs_append, hn, hb, huid]; rfl⟩))
      · exact Or.inr (Or.inr (Or.inr ⟨ha, by rw [notifs_append, hn, hb]; rfl⟩))
    · rcases hcase with ⟨hp2, hn⟩ | ⟨hp2, hn⟩ | ⟨hp2, hn⟩
      · obtain ⟨hf, hb⟩ := steps_terminal htail (by rw [hp2]; rfl)
        exact Or.inr (Or.inl ⟨hf.trans hp2, c1.driverID,
          by rw [notifs_append, hn, hb]; rfl⟩)
      · obtain ⟨hf, hb⟩ := steps_terminal htail (by rw [hp2]; rfl)
        exact Or.inr (Or.inr (Or.inl ⟨hf.trans hp2, by rw [notifs_append, hn, hb]; rfl⟩))
      · obtain ⟨hf, hb⟩ := steps_terminal htail (by rw [hp2]; rfl)
        exact Or.inr (Or.inr (Or.inr ⟨hf.trans hp2, by rw [notifs_append, hn, hb]; rfl⟩))

/-- C5: for every prior ledger state - the id unknown, already canceled or already
expired included - CancelRequest writes the canceled flag "0" for the id with a 1-minute
(60 s) TTL, leaves every other key and the rest of the state alone, answers 200 with no
error surfaced, and a task already in a terminal phase can never change phase again. -/
theorem cancelRequest_spec (st : RedisState) (rid : String) :
    lookupKV (cancelRequest st (some rid)).1.kv rid = some (encodeBool false)
  ∧ ttlKV (cancelRequest st (some rid)).1.kv rid = some 60
  ∧ (cancelRequest st (some rid)).2 = ⟨200, ""⟩
  ∧ (∀ k : String, k ≠ rid →
      lookupKV (cancelRequest st (some rid)).1.kv k = lookupKV st.kv k)
  ∧ (cancelRequest st (some rid)).1.counter = st.counter
  ∧ (cancelRequest st (some rid)).1.drivers = st.drivers
  ∧ ∀ (d : Dist) (g : Hash) (c : Config) (as : List Act) (c' : Config),
      isTerminal c.phase = true → Step d g c as c' → c'.phase = c.phase := by
  refine ⟨?_, ?_, rfl, fun k hk => ?_, rfl, rfl,
    fun d g c as c' ht hstep => (step_phase_terminal hstep ht).1⟩
  · simp [cancelRequest, redisSet, lookupKV]
  · simp [cancelRequest, redisSet, ttlKV]
  · show lookupKV ((rid, encodeBool false, 60) ::
      st.kv.filter fun e => !decide (e.1 = rid)) k = lookupKV st.kv k
    have hrk : ¬ rid = k := fun hx => hk hx.symm
    simp only [lookupKV, hrk, if_false]
    exact lookupKV_filter_ne st.kv rid k hk

/-- Witness for C5: canceling id "5" over a ledger where it is still active, and a
concrete environment step from a terminal config that leaves the phase terminal. -/
theorem cancelRequest_spec_witness :
    lookupKV (cancelRequest ⟨0, [("5", "1", 240)], []⟩ (some "5")).1.kv "5" = some "0"
  ∧ lookupKV (cancelRequest ⟨0, [("5", "1", 240)], []⟩ (some "5")).1.kv "8"
      = lookupKV [("5", "1", 240)] "8"
  ∧ c5term'.phase = c5term.phase := by
  have h := cancelRequest_spec ⟨0, [("5", "1", 240)], []⟩ "5"
  refine ⟨h.1, h.2.2.2.1 "8" (by decide), ?_⟩
  exact h.2.2.2.2.2.2 dOne gZero c5term [] c5term' rfl
    (Step.envLedger .canceledDone "5" "requestor_5" 0 0 "" [] false
      [("5", "0", 60)] [("5", "0", 60), ("7", "0", 60)] [])

/-- C6: a SearchV2 call whose body decodes allocates the next counter value as its fresh
id, writes the active flag "1" for that id with a 4-minute (240 s) TTL, spawns exactly
one matching task bound to that id and target point, and answers 200 carrying the id -
all computed without running the spawned task. Distinct counter values always render to
distinct ids, so ids never collide over the process lifetime. -/
theorem searchV2_allocates (st : RedisState) (lat lng : ℚ) :
    (searchV2 st false (some (lat, lng))).1.counter = st.counter + 1
  ∧ lookupKV (searchV2 st false (some (lat, lng))).1.kv (itoa (st.counter + 1))
      = some (encodeBool true)
  ∧ ttlKV (searchV2 st false (some (lat, lng))).1.kv (itoa (st.counter + 1)) = some 240
  ∧ (searchV2 st false (some (lat, lng))).2.1
      = [⟨itoa (st.counter + 1), "requestor_" ++ itoa (st.counter + 1), lat, lng⟩]
  ∧ (searchV2 st false (some (lat, lng))).2.2.status = 200
  ∧ (searchV2 st false (some (lat, lng))).2.2.body
      = "\x7b\"request_id\": " ++ itoa (st.counter + 1) ++ "\x7d"
  ∧ ∀ m k : ℕ, m ≠ k → itoa m ≠ itoa k := by
  refine ⟨rfl, ?_, ?_, rfl, rfl, rfl, fun m k hmk hit => hmk (itoa_injective hit)⟩
  · simp [searchV2, redisSet, lookupKV]
  · simp [searchV2, redisSet, ttlKV]

/-- Witness for C6: first call on the empty state allocates id "1", and ids of distinct
counter values differ. -/
theorem searchV2_allocates_witness :
    lookupKV (searchV2 st0 false (some (1, 2))).1.kv (itoa 1) = some "1"
  ∧ (searchV2 st0 false (some (1, 2))).2.1 = [⟨"1", "requestor_1", 1, 2⟩]
  ∧ itoa 1 ≠ itoa 2 := by
  have h := searchV2_allocates st0 1 2
  exact ⟨h.2.1, h.2.2.2.1, h.2.2.2.2.2.2 1 2 (by decide)⟩

/-- C8 (counterexample): the first SearchV2 call answers with body
(request_id : 1) - the id rendered bare via %s, a JSON number token - and no string v
makes that body equal to a JSON object whose request_id value is the quoted string v. -/
theorem searchV2_body_not_json_string :
    (searchV2 st0 false (some (0, 0))).2.2.body = "\x7b\"request_id\": 1\x7d"
  ∧ ¬ ∃ v : String, (searchV2 st0 false (some (0, 0))).2.2.body
      = "\x7b\"request_id\": \"" ++ v ++ "\"\x7d" := by
  constructor
  · rfl
  · rintro ⟨v, hv⟩
    have hbody : (searchV2 st0 false (some (0, 0))).2.2.body
        = "\x7b\"request_id\": 1\x7d" := rfl
    rw [hbody] at hv
    have hlen := congrArg String.length hv
    rw [String.length_append, String.length_append] at hlen
    have h1 : ("\x7b\"request_id\": 1\x7d" : String).length = 17 := rfl
    have h2 : ("\x7b\"request_id\": \"" : String).length = 16 := rfl
    have h3 : ("\"\x7d" : String).length = 2 := rfl
    rw [h1, h2, h3] at hlen
    omega

/-- C8 (amended): the success body of SearchV2 renders the allocated id unquoted, that
is as a JSON number: the body is the object text with the bare decimal id spliced in. -/
theorem searchV2_body_json_number (st : RedisState) (lat lng : ℚ) :
    (searchV2 st false (some (lat, lng))).2.2.body
      = "\x7b\"request_id\": " ++ itoa (st.counter + 1) ++ "\x7d" := rfl

/-- C10: on a malformed body, SearchV2 has already consumed an id (counter increment)
and written the active flag with the 4-minute (240 s) TTL before the decode fails; the
handler answers the decode error and spawns no matching task. -/
theorem searchV2_malformed_body (st : RedisState) :
    (searchV2 st false none).1.counter = st.counter + 1
  ∧ lookupKV (searchV2 st false none).1.kv (itoa (st.counter + 1))
      = some (encodeBool true)
  ∧ ttlKV (searchV2 st false none).1.kv (itoa (st.counter + 1)) = some 240
  ∧ (searchV2 st false none).2.1 = []
  ∧ (searchV2 st false none).2.2 = ⟨500, "could not decode request\n"⟩ := by
  refine ⟨rfl, ?_, ?_, rfl, rfl⟩
  · simp [searchV2, redisSet, lookupKV]
  · simp [searchV2, redisSet, ttlKV]

theorem mem_insertByDist {x y : GeoLoc} {l : List GeoLoc} :
    y ∈ insertByDist x l ↔ y = x ∨ y ∈ l := by
  induction l with
  | nil => simp [insertByDist]
  | cons a t ih =>
    simp only [insertByDist]
    by_cases hc : x.dist ≤ a.dist
    · simp [hc]
    · simp only [hc, if_false, List.mem_cons, ih]
      tauto

theorem mem_sortByDist {y : GeoLoc} : ∀ {l : List GeoLoc}, y ∈ sortByDist l ↔ y ∈ l := by
  intro l
  induction l with
  | nil => simp [sortByDist]
  | cons a t ih => simp [sortByDist, mem_insertByDist, ih]

theorem searchDrivers_mem {d : Dist} {g : Hash} {limit : ℕ} {lat lng r : ℚ}
    {idx : List Member} {gl : GeoLoc} (h : gl ∈ searchDrivers d g limit lat lng r idx) :
    gl.dist ≤ r ∧ gl.dist = d lat lng gl.latitude gl.longitude
  ∧ (⟨gl.name, gl.longitude, gl.latitude⟩ : Member) ∈ idx := by
  have h1 := List.take_subset limit _ h
  rw [mem_sortByDist, List.mem_filterMap] at h1
  obtain ⟨m, hm, heq⟩ := h1
  by_cases hc : d lat lng m.lat m.lng ≤ r
  · rw [if_pos hc] at heq
    obtain rfl := Option.some.inj heq
    exact ⟨hc, rfl, hm⟩
  · rw [if_neg hc] at heq
    cases heq

theorem removeMember_name_ne (idx : List Member) (n : String) :
    ∀ m ∈ removeMember idx n, m.name ≠ n := by
  intro m hm
  rw [removeMember, List.mem_filter] at hm
  simpa using hm.2

theorem removeMember_mem (idx : List Member) (n : String) :
    ∀ m ∈ idx, m.name ≠ n → m ∈ removeMember idx n := by
  intro m hm hne
  rw [removeMember, List.mem_filter]
  exact ⟨hm, by simpa using hne⟩

/-- C2: every doSearch queries the index with limit fixed at 1 and radius 5 centered at
the request target: the result holds at most one row, every row lies within distance 5
of the target under the index metric and stems from an index member. On exactly one row
the driver is removed from the index before the match is recorded in r.DriverID and
before the done signal is sent (action order: query, remove, assign, send); removal
drops precisely the members carrying that name. On zero rows nothing changes, no signal
is sent, and the task waits for the next tick. -/
theorem doSearch_spec (d : Dist) (g : Hash) (lat lng : ℚ) (did : String)
    (idx : List Member) :
    (searchDrivers d g 1 lat lng 5 idx).length ≤ 1
  ∧ ((searchDrivers d g 1 lat lng 5 idx).all fun gl =>
      decide (gl.dist ≤ 5) && decide (gl.dist = d lat lng gl.latitude gl.longitude)
        && idx.any fun m => decide (m = ⟨gl.name, gl.longitude, gl.latitude⟩)) = true
  ∧ (∀ n : String, ∀ m ∈ removeMember idx n, m.name ≠ n)
  ∧ (∀ n : String, ∀ m ∈ idx, m.name ≠ n → m ∈ removeMember idx n)
  ∧ (match searchDrivers d g 1 lat lng 5 idx with
     | [dr] => doSearch d g lat lng did idx
         = ⟨removeMember idx dr.name, dr.name, true,
            [.query [dr], .removeLoc dr.name, .assign dr.name, .send]⟩
     | q => doSearch d g lat lng did idx = ⟨idx, did, false, [.query q]⟩) := by
  refine ⟨?_, ?_, removeMember_name_ne idx, removeMember_mem idx, ?_⟩
  · rw [searchDrivers, List.length_take]
    exact min_le_left 1 _
  · rw [List.all_eq_true]
    intro gl hgl
    obtain ⟨h1, h2, h3⟩ := searchDrivers_mem hgl
    simp only [Bool.and_eq_true, decide_eq_true_eq, List.any_eq_true]
    exact ⟨⟨h1, h2⟩, ⟨gl.name, gl.longitude, gl.latitude⟩, h3, by simp⟩
  · cases hq : searchDrivers d g 1 lat lng 5 idx with
    | nil => simp [doSearch, hq]
    | cons dr tail =>
      cases tail with
      | nil => simp [doSearch, hq]
      | cons b t => simp [doSearch, hq]

/-- Witness for C2: a single driver at unit distance is matched, removed and signalled
in order, and a member whose name differs survives removal. -/
theorem doSearch_spec_witness :
    doSearch dOne gZero 0 0 "" [⟨"d1", 0, 0⟩]
      = ⟨[], "d1", true,
          [.query [⟨"d1", 0, 0, 1, 0⟩], .removeLoc "d1", .assign "d1", .send]⟩
  ∧ (⟨"d2", 3, 3⟩ : Member) ∈ removeMember [⟨"d1", 0, 0⟩, ⟨"d2", 3, 3⟩] "d1" := by
  have h := doSearch_spec dOne gZero 0 0 "" [⟨"d1", 0, 0⟩]
  have h2 := doSearch_spec dOne gZero 0 0 "" [⟨"d1", 0, 0⟩, ⟨"d2", 3, 3⟩]
  exact ⟨h.2.2.2.2, h2.2.2.2.1 "d1" ⟨"d2", 3, 3⟩ (by decide) (by decide)⟩

/-- C3 (amended): starting from the loop, a task delivers notifications exactly as keyed
by the phase it reaches: a driver found message carrying some driver id for Matched, the
no driver found message for Expired, none for Canceled and none while still looping; and
from a terminal phase no step ever notifies again or reads the ledger. An in-flight
doSearch goroutine spawned before the terminal state may however still access the
location index afterwards (see the counterexample). -/
theorem run_terminal_notifications (d : Dist) (g : Hash) (c : Config) (acts : List Act)
    (cf : Config) (h0 : c.phase = Phase.looping) (h : Steps d g c acts cf) :
    (cf.phase = Phase.matched → ∃ n, notifs acts = [(c.userID, foundMsg n)])
  ∧ (cf.phase = Phase.expiredDone → notifs acts = [(c.userID, expiredMsg)])
  ∧ (cf.phase = Phase.canceledDone → notifs acts = [])
  ∧ (cf.phase = Phase.looping → notifs acts = [])
  ∧ (isTerminal cf.phase = true → ∀ (bs : List Act) (c' : Config), Step d g cf bs c' →
      notifs bs = [] ∧ Act.ledgerGet ∉ bs) := by
  have hmain := steps_notifs h h0
  refine ⟨fun hm => ?_, fun hm => ?_, fun hm => ?_, fun hm => ?_,
    fun ht bs c' hstep =>
      ⟨(step_phase_terminal hstep ht).2.1, (step_phase_terminal hstep ht).2.2⟩⟩
  all_goals
    rcases hmain with ⟨ha, hb⟩ | ⟨ha, hb⟩ | ⟨ha, hb⟩ | ⟨ha, hb⟩ <;>
      first
        | exact hb
        | exact absurd ha (by rw [hm]; decide)

/-- Witness for C3: a concrete two-tick run of task 9 whose ledger entry lapses delivers
exactly the no driver found notification. -/
theorem run_terminal_notifications_witness :
    c3a.phase = Phase.looping
  ∧ notifs [Act.ledgerGet, Act.logSearch, Act.ledgerGet,
      Act.notify "requestor_9" expiredMsg] = [("requestor_9", expiredMsg)] := by
  have s1 : Step dOne gZero c3a [Act.ledgerGet, Act.logSearch]
      ⟨.looping, "9", "requestor_9", 0, 0, "", [.started], false, [("9", "1", 240)],
        [⟨"d1", 0, 0⟩]⟩ :=
    Step.tickOk (ledgerGet [("9", "1", 240)] "9") "9" "requestor_9" 0 0 "" [] false
      [("9", "1", 240)] [⟨"d1", 0, 0⟩] (Or.inl rfl) (by decide)
  have s2 : Step dOne gZero
      ⟨.looping, "9", "requestor_9", 0, 0, "", [.started], false, [("9", "1", 240)],
        [⟨"d1", 0, 0⟩]⟩ []
      ⟨.looping, "9", "requestor_9", 0, 0, "", [.started], false, [], [⟨"d1", 0, 0⟩]⟩ :=
    Step.envLedger .looping "9" "requestor_9" 0 0 "" [.started] false
      [("9", "1", 240)] [] [⟨"d1", 0, 0⟩]
  have s3 : Step dOne gZero
      ⟨.looping, "9", "requestor_9", 0, 0, "", [.started], false, [], [⟨"d1", 0, 0⟩]⟩
      [Act.ledgerGet, Act.notify "requestor_9" expiredMsg] c3mid :=
    Step.tickExpired (ledgerGet [] "9") "9" "requestor_9" 0 0 "" [.started] false []
      [⟨"d1", 0, 0⟩] (Or.inl rfl) (by decide)
  have hs : Steps dOne gZero c3a
      ([Act.ledgerGet, Act.logSearch] ++ ([] ++
        ([Act.ledgerGet, Act.notify "requestor_9" expiredMsg] ++ []))) c3mid :=
    Steps.cons s1 (Steps.cons s2 (Steps.cons s3 (Steps.refl c3mid)))
  have h := run_terminal_notifications dOne gZero c3a _ c3mid rfl hs
  exact ⟨rfl, h.2.1 rfl⟩

/-- C3 (counterexample): task 9 reaches the terminal Expired phase and notifies, yet its
leftover doSearch goroutine afterwards still queries the location index and removes
driver d1 from it - index accesses by the task after its terminal state. -/
theorem run_post_terminal_index_access :
    Steps dOne gZero c3a
      [Act.ledgerGet, Act.logSearch, Act.ledgerGet, Act.notify "requestor_9" expiredMsg]
      c3mid
  ∧ isTerminal c3mid.phase = true
  ∧ Step dOne gZero c3mid [Act.indexQuery] c3mid2
  ∧ Step dOne gZero c3mid2 [Act.indexRemove "d1"] c3end
  ∧ c3end.index = [] := by
  refine ⟨?_, rfl, ?_, ?_, rfl⟩
  · have s1 : Step dOne gZero c3a [Act.ledgerGet, Act.logSearch]
        ⟨.looping, "9", "requestor_9", 0, 0, "", [.started], false, [("9", "1", 240)],
          [⟨"d1", 0, 0⟩]⟩ :=
      Step.tickOk (ledgerGet [("9", "1", 240)] "9") "9" "requestor_9" 0 0 "" [] false
        [("9", "1", 240)] [⟨"d1", 0, 0⟩] (Or.inl rfl) (by decide)
    have s2 : Step dOne gZero
        ⟨.looping, "9", "requestor_9", 0, 0, "", [.started], false, [("9", "1", 240)],
          [⟨"d1", 0, 0⟩]⟩ []
        ⟨.looping, "9", "requestor_9", 0, 0, "", [.started], false, [], [⟨"d1", 0, 0⟩]⟩ :=
      Step.envLedger .looping "9" "requestor_9" 0 0 "" [.started] false
        [("9", "1", 240)] [] [⟨"d1", 0, 0⟩]
    have s3 : Step dOne gZero
        ⟨.looping, "9", "requestor_9", 0, 0, "", [.started], false, [], [⟨"d1", 0, 0⟩]⟩
        [Act.ledgerGet, Act.notify "requestor_9" expiredMsg] c3mid :=
      Step.tickExpired (ledgerGet [] "9") "9" "requestor_9" 0 0 "" [.started] false []
        [⟨"d1", 0, 0⟩] (Or.inl rfl) (by decide)
    exact Steps.cons s1 (Steps.cons s2 (Steps.cons s3 (Steps.refl c3mid)))
  · exact Step.goQuery .expiredDone "9" "requestor_9" 0 0 "" [] [] false []
      [⟨"d1", 0, 0⟩]
  · exact Step.goFound .expiredDone "9" "requestor_9" 0 0 "" [] [] "d1" []
      [⟨"d1", 0, 0⟩]

/-- C4 (counterexample): a tick that hits a transport error while the ledger entry is
present and active produces exactly the same actions - one ledger read, the no driver
found notification, nothing logged in between - and the same terminal phase as a tick
observing a genuinely absent key, because validateRequest discards the error value;
nothing in the behavior distinguishes the two for an operator. -/
theorem transport_error_indistinguishable_from_expiry :
    Step dOne gZero c4a [Act.ledgerGet, Act.notify "requestor_9" expiredMsg] c4a'
  ∧ Step dOne gZero c4b [Act.ledgerGet, Act.notify "requestor_9" expiredMsg] c4b'
  ∧ lookupKV c4a.ledger "9" = some "1"
  ∧ lookupKV c4b.ledger "9" = none
  ∧ validateRequest (Except.error RedisErr.transport)
      = validateRequest (Except.error RedisErr.nil) := by
  refine ⟨?_, ?_, rfl, rfl, rfl⟩
  · exact Step.tickExpired (Except.error RedisErr.transport) "9" "requestor_9" 0 0 ""
      [] false [("9", "1", 240)] [] (Or.inr rfl) rfl
  · exact Step.tickExpired (ledgerGet [] "9") "9" "requestor_9" 0 0 "" [] false [] []
      (Or.inl rfl) rfl

/-- C7 (amended): a step that increases the number of in-flight search goroutines is
exactly a tick of the sequential Run loop whose ledger validity check came back valid:
the acts place the ledger read before the spawn, precisely one goroutine is added, and
the loop keeps looping. Overlap of search attempts is nevertheless possible because the
loop never awaits the goroutines it spawned (see the counterexample). -/
theorem run_spawn_requires_valid_check (d : Dist) (g : Hash) (c : Config) (as : List Act)
    (c' : Config) (h : Step d g c as c') (hgrow : c.gos.length < c'.gos.length) :
    c.phase = Phase.looping
  ∧ as = [Act.ledgerGet, Act.logSearch]
  ∧ c'.gos = c.gos ++ [GoSt.started]
  ∧ c'.phase = Phase.looping
  ∧ (∃ res : Except RedisErr String,
      readOk res c.ledger c.reqID ∧ validateRequest res = none)
  ∧ c'.gos.length = c.gos.length + 1 := by
  cases h with
  | tickOk res rid uid lat lng did gos db led idx h1 h2 =>
    exact ⟨rfl, rfl, rfl, rfl, ⟨res, h1, h2⟩, by simp⟩
  | tickExpired res rid uid lat lng did gos db led idx h1 h2 =>
    exact absurd hgrow (by simp)
  | tickCanceled res rid uid lat lng did gos db led idx h1 h2 =>
    exact absurd hgrow (by simp)
  | recvDone rid uid lat lng did gos led idx => exact absurd hgrow (by simp)
  | goQuery ph rid uid lat lng did l1 l2 db led idx =>
    exact absurd hgrow (by simp)
  | goFound ph rid uid lat lng did l1 l2 n led idx =>
    exact absurd hgrow (by simp only [List.length_append, List.length_cons]; omega)
  | goNone ph rid uid lat lng did l1 l2 db led idx =>
    exact absurd hgrow (by simp only [List.length_append, List.length_cons]; omega)
  | envLedger ph rid uid lat lng did gos db led led' idx => exact absurd hgrow (by simp)
  | envIndex ph rid uid lat lng did gos db led idx idx' => exact absurd hgrow (by simp)

/-- Witness for C7: a concrete valid tick of task 9 spawns exactly one search goroutine
after its ledger check. -/
theorem run_spawn_requires_valid_check_witness :
    c7w0.phase = Phase.looping ∧ c7w1.gos = c7w0.gos ++ [GoSt.started] := by
  have hstep : Step dOne gZero c7w0 [Act.ledgerGet, Act.logSearch] c7w1 :=
    Step.tickOk (ledgerGet [("9", "1", 240)] "9") "9" "requestor_9" 0 0 "" [] false
      [("9", "1", 240)] [] (Or.inl rfl) (by decide)
  have h := run_spawn_requires_valid_check dOne gZero c7w0 _ c7w1 hstep (by decide)
  exact ⟨h.1, h.2.2.1⟩

/-- C7 (counterexample): two consecutive valid ticks of task 9 spawn two doSearch
goroutines, and both run their index queries before either finishes: the task reaches a
state with two search attempts concurrently in flight, which moreover both selected the
same driver d1. -/
theorem run_concurrent_search_attempts :
    Steps dOne gZero c7c0
      [Act.ledgerGet, Act.logSearch, Act.ledgerGet, Act.logSearch,
        Act.indexQuery, Act.indexQuery] c7c4
  ∧ c7c4.gos = [GoSt.queried (some "d1"), GoSt.queried (some "d1")]
  ∧ c7c4.phase = Phase.looping := by
  refine ⟨?_, rfl, rfl⟩
  have s1 : Step dOne gZero c7c0 [Act.ledgerGet, Act.logSearch]
      ⟨.looping, "9", "requestor_9", 0, 0, "", [.started], false, [("9", "1", 240)],
        [⟨"d1", 0, 0⟩]⟩ :=
    Step.tickOk (ledgerGet [("9", "1", 240)] "9") "9" "requestor_9" 0 0 "" [] false
      [("9", "1", 240)] [⟨"d1", 0, 0⟩] (Or.inl rfl) (by decide)
  have s2 : Step dOne gZero
      ⟨.looping, "9", "requestor_9", 0, 0, "", [.started], false, [("9", "1", 240)],
        [⟨"d1", 0, 0⟩]⟩ [Act.ledgerGet, Act.logSearch]
      ⟨.looping, "9", "requestor_9", 0, 0, "", [.started, .started], false,
        [("9", "1", 240)], [⟨"d1", 0, 0⟩]⟩ :=
    Step.tickOk (ledgerGet [("9", "1", 240)] "9") "9" "requestor_9" 0 0 "" [.started]
      false [("9", "1", 240)] [⟨"d1", 0, 0⟩] (Or.inl rfl) (by decide)
  have s3 : Step dOne gZero
      ⟨.looping, "9", "requestor_9", 0, 0, "", [.started, .started], false,
        [("9", "1", 240)], [⟨"d1", 0, 0⟩]⟩ [Act.indexQuery]
      ⟨.looping, "9", "requestor_9", 0, 0, "", [.queried (some "d1"), .started], false,
        [("9", "1", 240)], [⟨"d1", 0, 0⟩]⟩ :=
    Step.goQuery .looping "9" "requestor_9" 0 0 "" [] [.started] false
      [("9", "1", 240)] [⟨"d1", 0, 0⟩]
  have s4 : Step dOne gZero
      ⟨.looping, "9", "requestor_9", 0, 0, "", [.queried (some "d1"), .started], false,
        [("9", "1", 240)], [⟨"d1", 0, 0⟩]⟩ [Act.indexQuery] c7c4 :=
    Step.goQuery .looping "9" "requestor_9" 0 0 "" [.queried (some "d1")] [] false
      [("9", "1", 240)] [⟨"d1", 0, 0⟩]
  exact Steps.cons s1 (Steps.cons s2 (Steps.cons s3 (Steps.cons s4 (Steps.refl c7c4))))

end Tracking
